import Mathlib

/-!
# MouseDevice: game/system/hid/devices/mouse.cpp

A shallow embedding of the mouse adapter and the properties of its operations.

Conventions of the embedding.

* Single-precision values (cursor coordinates, relative deltas, sensitivities, wheel
  deltas) are represented by the rational numbers they denote, and their products and
  sums are taken exactly.  Every concrete input used below is a dyadic rational with a
  short mantissa, for which the single-precision operation is exact as well.
* `int` is the 32-bit two-complement integer: sums wrap modulo `2 ^ 32`, and the
  conversion `int(float)` discards the fractional part.  For a value whose integer
  part does not fit, the language leaves the conversion undefined; the embedding
  takes what the x86-64 conversion instruction yields there, `INT_MIN`.
* Calls into code that is not part of the file (the bind table of the settings, the
  command callbacks, the log, the revert callbacks of active actions) are recorded, in
  order, in the result of the operation that makes them.
* What the operations read from the windowing layer (the modifier-key state, the
  mouse state, the pending event queue) is an explicit argument.
-/

namespace Mouse

/-! ## Integers and the analog formula -/

/-- Smallest value of a 32-bit `int`. -/
def INT_MIN : Int := -2147483648

/-- Largest value of a 32-bit `int`. -/
def INT_MAX : Int := 2147483647

/-- Discarding the fractional part: rounding toward zero. -/
def trunc (q : ℚ) : Int := if 0 ≤ q then ⌊q⌋ else ⌈q⌉

/-- The conversion `int(q)` of a single-precision value: the fractional part is
discarded; a value whose integer part is not a 32-bit `int` gives `INT_MIN`. -/
def float_to_int (q : ℚ) : Int :=
  if INT_MIN ≤ trunc q ∧ trunc q ≤ INT_MAX then trunc q else INT_MIN

/-- Reduction of an integer to the 32-bit two-complement range. -/
def wrap_int (i : Int) : Int := (i + 2147483648) % 4294967296 - 2147483648

/-- Addition of two `int` values. -/
def int_add (a b : Int) : Int := wrap_int (a + b)

/-- The function `std::clamp(v, lo, hi)`. -/
def clamp (v lo hi : Int) : Int := if v < lo then lo else if hi < v then hi else v

/-- The expression `std::clamp(127 + int(rel_amount * sens), 0, 255)` of `process_event`. -/
def adjust (rel_amount sens : ℚ) : Int :=
  clamp (int_add 127 (float_to_int (rel_amount * sens))) 0 255

/-! ## Data model -/

/-- Button code `SDL_BUTTON_LEFT`. -/
def SDL_BUTTON_LEFT : Nat := 1

/-- Button code `SDL_BUTTON_MIDDLE`. -/
def SDL_BUTTON_MIDDLE : Nat := 2

/-- Button code `SDL_BUTTON_RIGHT`. -/
def SDL_BUTTON_RIGHT : Nat := 3

/-- Button code `SDL_BUTTON_X1`. -/
def SDL_BUTTON_X1 : Nat := 4

/-- Button code `SDL_BUTTON_X2`. -/
def SDL_BUTTON_X2 : Nat := 5

/-- The mask `SDL_BUTTON_MASK(x)` of a button in the button state word. -/
def SDL_BUTTON_MASK (x : Nat) : Nat := 1 <<< (x - 1)

/-- The events the device distinguishes by `event.type`.  `button down b` is
`SDL_EVENT_MOUSE_BUTTON_DOWN` when `down` is true and `SDL_EVENT_MOUSE_BUTTON_UP`
otherwise; `other` is any event of another type. -/
inductive SDL_Event where
  | motion (x y xrel yrel : ℚ)
  | button (down : Bool) (button : Nat)
  | wheel (y : ℚ)
  | other
  deriving DecidableEq

/-- Flags mirroring the physical buttons. -/
structure ButtonStatus where
  left : Bool
  right : Bool
  middle : Bool
  mouse4 : Bool
  mouse5 : Bool
  deriving DecidableEq, Repr

/-- Modelled from the spec: the shared pad-data buffer, whose declaration is not in the
source file.  It holds the analog channels, indexed by channel number, and the button
state that bindings override. -/
structure PadData where
  analog_data : Nat → Int
  button_data : Nat → Bool

/-- The assignment `data->analog_data.at(i) = v`. -/
def PadData.set_analog (data : PadData) (i : Nat) (v : Int) : PadData :=
  { data with analog_data := fun j => if j = i then v else data.analog_data j }

/-- The device kinds of a bind assignment. -/
inductive InputDeviceType where
  | CONTROLLER
  | KEYBOARD
  | MOUSE
  deriving DecidableEq, Repr

/-- The request to capture the next input as a new bind; the fields are those
`process_event` reads. -/
structure InputBindAssignmentMeta where
  device_type : InputDeviceType
  for_analog : Bool
  deriving DecidableEq, Repr

/-- One call `assign_button_bind(sdl_idx, bind_meta, analog_button, modifiers)`; the
modifiers are the key-modifier state they are built from. -/
structure ButtonBind where
  sdl_idx : Nat
  bind_meta : InputBindAssignmentMeta
  analog_button : Bool
  modifiers : Nat
  deriving DecidableEq, Repr

/-- Modelled from the spec: the settings object with its mouse bind table, whose code is
not in the source file.  The table is represented by the bindings registered in it
through `assign_button_bind`, oldest first. -/
structure InputSettings where
  mouse_binds : List ButtonBind
  deriving DecidableEq, Repr

/-- The bind table operation `assign_button_bind`. -/
def InputSettings.assign_button_bind (s : InputSettings) (sdl_idx : Nat)
    (bind_meta : InputBindAssignmentMeta) (analog_button : Bool) (modifiers : Nat) :
    InputSettings :=
  { mouse_binds := s.mouse_binds ++ [⟨sdl_idx, bind_meta, analog_button, modifiers⟩] }

/-- Modelled from the spec: the required modifier set of a command, given by its test
`has_necessary_modifiers` on a key-modifier state. -/
structure InputModifiers where
  has_necessary_modifiers : Nat → Bool

/-- A command bound to a button: its required modifiers and its two callbacks, each
possibly empty; a callback is named by a number. -/
structure CommandBinding where
  modifiers : InputModifiers
  event_command : Option Nat
  command : Option Nat

/-- The command table: per button code, the commands bound to it, if any. -/
structure CommandBindingGroups where
  mouse_binds : Nat → Option (List CommandBinding)

/-- A callback invocation: `event_command(event)` or `command()`. -/
inductive Invocation where
  | event_command (f : Nat) (event : SDL_Event)
  | command (f : Nat)
  deriving DecidableEq

/-- Modelled from the spec: the binding an active action reverts, whose declaration is
not in the source file. -/
structure InputBinding where
  pad_data_index : Int
  deriving DecidableEq, Repr

/-- A currently engaged binding-triggered effect. -/
structure ActiveAction where
  sdl_mouse_button : Nat
  binding : InputBinding
  player_movement : Bool
  revert_action : PadData → InputBinding → PadData

/-- The state of the device. -/
structure MouseDevice where
  m_settings : InputSettings
  m_active_actions : List ActiveAction
  m_button_status : ButtonStatus
  m_control_camera : Bool
  m_xcoord : ℚ
  m_ycoord : ℚ
  m_xrel_pos : ℚ
  m_yrel_pos : ℚ
  scroll_y : ℚ
  m_xsens : ℚ
  m_ysens : ℚ
  m_mouse_moved_x : Bool
  m_mouse_moved_y : Bool

/-! ## Operations -/

/-- The loop of `is_action_already_active` over the active actions, front to back. -/
def is_action_already_active_loop (sdl_code : Nat) (player_movement : Bool) :
    List ActiveAction → Bool
  | [] => false
  | action :: rest =>
    if !player_movement && action.sdl_mouse_button == sdl_code then true
    else if player_movement && action.player_movement then true
    else is_action_already_active_loop sdl_code player_movement rest

/-- The method `MouseDevice::is_action_already_active`. -/
def is_action_already_active (dev : MouseDevice) (sdl_code : Nat) (player_movement : Bool) :
    Bool :=
  is_action_already_active_loop sdl_code player_movement dev.m_active_actions

/-- What `clear_actions` leaves: the device, the pad data, and the actions whose
`revert_action` was called, in call order. -/
structure ClearResult where
  dev : MouseDevice
  data : PadData
  reverted : List ActiveAction

/-- The loop of `clear_actions`: revert the first action, erase it, go on with the
rest. -/
def clear_actions_loop : List ActiveAction → PadData → List ActiveAction →
    PadData × List ActiveAction
  | [], data, reverted => (data, reverted)
  | it :: rest, data, reverted =>
    clear_actions_loop rest (it.revert_action data it.binding) (reverted ++ [it])

/-- The method `MouseDevice::clear_actions`. -/
def clear_actions (dev : MouseDevice) (data : PadData) : ClearResult :=
  let r := clear_actions_loop dev.m_active_actions data []
  { dev := { dev with m_active_actions := [] }, data := r.1, reverted := r.2 }

/-- What the windowing layer reports when the device polls it: the button state word and
cursor position of `SDL_GetMouseState`, the deltas of `SDL_GetRelativeMouseState`, and
the pending event queue, oldest first. -/
structure SDL_State where
  mouse_state : Nat
  mouse_x : ℚ
  mouse_y : ℚ
  xrel : ℚ
  yrel : ℚ
  queue : List SDL_Event

/-- The call `SDL_PeepEvents(&e, 1, SDL_GETEVENT, SDL_EVENT_MOUSE_WHEEL,
SDL_EVENT_MOUSE_WHEEL)`: the oldest pending wheel event is taken out of the queue; the
result is its `wheel.y` and the queue without it, or `none` when no wheel event is
pending (the call returns 0). -/
def SDL_PeepEvents_wheel : List SDL_Event → Option (ℚ × List SDL_Event)
  | [] => none
  | SDL_Event.wheel y :: rest => some (y, rest)
  | e :: rest =>
    match SDL_PeepEvents_wheel rest with
    | none => none
    | some (y, rest2) => some (y, e :: rest2)

/-- The loop `while (SDL_PeepEvents(...) > 0) scroll_y += e.wheel.y` of `poll_state`:
the final accumulator and the queue left behind.  Every turn takes one event out of the
queue, so the loop ends. -/
def drain_wheel (queue : List SDL_Event) (scroll_y : ℚ) : ℚ × List SDL_Event :=
  match h : SDL_PeepEvents_wheel queue with
  | none => (scroll_y, queue)
  | some (y, queue2) => drain_wheel queue2 (scroll_y + y)
termination_by queue.length
decreasing_by
  have shorter : ∀ (q : List SDL_Event) (w : ℚ) (q2 : List SDL_Event),
      SDL_PeepEvents_wheel q = some (w, q2) → q2.length < q.length := by
    intro q
    induction q with
    | nil => intro w q2 hq; simp [SDL_PeepEvents_wheel] at hq
    | cons e rest ih =>
      intro w q2 hq
      cases e with
      | wheel v =>
        simp only [SDL_PeepEvents_wheel, Option.some.injEq, Prod.mk.injEq] at hq
        rw [← hq.2]
        simp
      | _ =>
        simp only [SDL_PeepEvents_wheel] at hq
        split at hq
        · simp at hq
        · rename_i w2 r2 heq
          simp only [Option.some.injEq, Prod.mk.injEq] at hq
          rw [← hq.2]
          have := ih w2 r2 heq
          simp only [List.length_cons]
          omega
  exact shorter queue y queue2 h

/-- The method `MouseDevice::poll_state`: the device afterwards and the event queue
left pending. -/
def poll_state (dev : MouseDevice) (sdl : SDL_State) : MouseDevice × List SDL_Event :=
  let dev1 := { dev with m_xrel_pos := sdl.xrel, m_yrel_pos := sdl.yrel }
  let dev2 := { dev1 with m_button_status :=
    { dev1.m_button_status with
      left := decide (sdl.mouse_state &&& SDL_BUTTON_MASK SDL_BUTTON_LEFT ≠ 0),
      right := decide (sdl.mouse_state &&& SDL_BUTTON_MASK SDL_BUTTON_RIGHT ≠ 0) } }
  let r := drain_wheel sdl.queue 0
  ({ dev2 with scroll_y := r.1 }, r.2)

/-- The `switch (button_event.button)` of `process_event`: the flag of the button takes
the value of `event.type == SDL_EVENT_MOUSE_BUTTON_DOWN`. -/
def update_button_status (st : ButtonStatus) (button : Nat) (down : Bool) : ButtonStatus :=
  if button = SDL_BUTTON_LEFT then { st with left := down }
  else if button = SDL_BUTTON_RIGHT then { st with right := down }
  else if button = SDL_BUTTON_MIDDLE then { st with middle := down }
  else if button = SDL_BUTTON_X1 then { st with mouse4 := down }
  else if button = SDL_BUTTON_X2 then { st with mouse5 := down }
  else st

/-- The text of the warning logged for a command without callback. -/
def no_callback_warning : String := "CommandBinding has no valid callback for mouse bind"

/-- What `process_event` leaves: the device (with the settings it shares), the pad data,
the callbacks invoked, in order, and the warnings logged. -/
structure ProcessResult where
  dev : MouseDevice
  data : PadData
  invoked : List Invocation
  warnings : List String

/-- The loop of `process_event` over the commands bound to the button of `event`: the
callbacks invoked and the warnings logged are appended to those so far. -/
def run_commands (mod_state : Nat) (event : SDL_Event) :
    List CommandBinding → List Invocation → List String → List Invocation × List String
  | [], invoked, warnings => (invoked, warnings)
  | command :: rest, invoked, warnings =>
    if command.modifiers.has_necessary_modifiers mod_state then
      match command.event_command, command.command with
      | some f, _ =>
        run_commands mod_state event rest (invoked ++ [Invocation.event_command f event]) warnings
      | none, some g =>
        run_commands mod_state event rest (invoked ++ [Invocation.command g]) warnings
      | none, none =>
        run_commands mod_state event rest invoked (warnings ++ [no_callback_warning])
    else run_commands mod_state event rest invoked warnings

/-- The method `MouseDevice::process_event`; `mod_state` is what `SDL_GetModState()`
returns while the event is processed. -/
def process_event (dev : MouseDevice) (mod_state : Nat) (event : SDL_Event)
    (commands : CommandBindingGroups) (data : PadData)
    (bind_assignment : Option InputBindAssignmentMeta) : ProcessResult :=
  match event with
  | SDL_Event.motion x y xrel yrel =>
    let dev1 := { dev with m_xcoord := x, m_ycoord := y }
    if dev1.m_control_camera then
      let xadjust := adjust xrel dev1.m_xsens
      let dev2 := if xadjust > 0 then { dev1 with m_mouse_moved_x := true } else dev1
      let data1 := data.set_analog 2 xadjust
      let yadjust := adjust yrel dev2.m_ysens
      let dev3 := if yadjust > 0 then { dev2 with m_mouse_moved_y := true } else dev2
      let data2 := data1.set_analog 3 yadjust
      { dev := dev3, data := data2, invoked := [], warnings := [] }
    else { dev := dev1, data := data, invoked := [], warnings := [] }
  | SDL_Event.button down button =>
    let dev1 := { dev with
      m_button_status := update_button_status dev.m_button_status button down }
    match bind_assignment, down with
    | some assignment, true =>
      if assignment.device_type = InputDeviceType.MOUSE ∧ assignment.for_analog = false then
        { dev := { dev1 with m_settings :=
            dev1.m_settings.assign_button_bind button assignment false mod_state },
          data := data, invoked := [], warnings := [] }
      else { dev := dev1, data := data, invoked := [], warnings := [] }
    | _, _ =>
      match down, commands.mouse_binds button with
      | true, some cmds =>
        let r := run_commands mod_state event cmds [] []
        { dev := dev1, data := data, invoked := r.1, warnings := r.2 }
      | _, _ => { dev := dev1, data := data, invoked := [], warnings := [] }
  | _ => { dev := dev, data := data, invoked := [], warnings := [] }

/-- The method `MouseDevice::set_camera_sens`. -/
def set_camera_sens (dev : MouseDevice) (xsens ysens : ℚ) : MouseDevice :=
  { dev with m_xsens := xsens, m_ysens := ysens }

/-- The value on an analog channel of the pad data after `process_event`. -/
def channel_after (dev : MouseDevice) (mod_state : Nat) (event : SDL_Event)
    (commands : CommandBindingGroups) (data : PadData)
    (bind_assignment : Option InputBindAssignmentMeta) (channel : Nat) : Int :=
  (process_event dev mod_state event commands data bind_assignment).data.analog_data channel

/-! ## The formulas of the specification -/

/-- The duplicate test as the specification words it: some active action is a
non-movement action with the same button code, or some active action is a
player-movement action. -/
def spec_action_active (actions : List ActiveAction) (sdl_code : Nat) : Prop :=
  (∃ a ∈ actions, a.player_movement = false ∧ a.sdl_mouse_button = sdl_code) ∨
    (∃ a ∈ actions, a.player_movement = true)

/-- The wheel deltas pending in an event queue, oldest first. -/
def wheel_deltas : List SDL_Event → List ℚ
  | [] => []
  | SDL_Event.wheel y :: rest => y :: wheel_deltas rest
  | _ :: rest => wheel_deltas rest

/-- The events of a queue that are not wheel events, in order. -/
def non_wheel : List SDL_Event → List SDL_Event
  | [] => []
  | SDL_Event.wheel _ :: rest => non_wheel rest
  | e :: rest => e :: non_wheel rest

/-! ## Sample inputs -/

/-- A button status with no button held. -/
def released : ButtonStatus :=
  { left := false, right := false, middle := false, mouse4 := false, mouse5 := false }

/-- A device in cursor mode with no binds, no active actions and unit sensitivities. -/
def cursor_device : MouseDevice :=
  { m_settings := { mouse_binds := [] }, m_active_actions := [], m_button_status := released,
    m_control_camera := false, m_xcoord := 0, m_ycoord := 0, m_xrel_pos := 0,
    m_yrel_pos := 0, scroll_y := 0, m_xsens := 1, m_ysens := 1,
    m_mouse_moved_x := false, m_mouse_moved_y := false }

/-- The same device in camera-control mode. -/
def camera_device : MouseDevice := { cursor_device with m_control_camera := true }

/-- The camera-control device after `set_camera_sens(2147483648, 1)`: the x sensitivity
is `2^31`. -/
def steep_device : MouseDevice := set_camera_sens camera_device 2147483648 1

/-- Pad data with every analog channel neutral and no button set. -/
def neutral_pad : PadData := { analog_data := fun _ => 127, button_data := fun _ => false }

/-- A command table without entries. -/
def no_commands : CommandBindingGroups := { mouse_binds := fun _ => none }

/-- A required modifier set that every key-modifier state satisfies. -/
def any_modifiers : InputModifiers := { has_necessary_modifiers := fun _ => true }

/-- A command with an event callback and no modifier requirement. -/
def event_cmd : CommandBinding :=
  { modifiers := any_modifiers, event_command := some 7, command := none }

/-- A command table whose only entry binds the given commands to the left button. -/
def left_commands (cmds : List CommandBinding) : CommandBindingGroups :=
  { mouse_binds := fun b => if b = SDL_BUTTON_LEFT then some cmds else none }

/-- A revert callback that puts the analog channel of the binding back to neutral. -/
def neutral_revert (data : PadData) (binding : InputBinding) : PadData :=
  data.set_analog binding.pad_data_index.toNat 127

/-- An active action on the given button. -/
def sample_action (button : Nat) (movement : Bool) : ActiveAction :=
  { sdl_mouse_button := button, binding := { pad_data_index := 0 },
    player_movement := movement, revert_action := neutral_revert }

/-! ## Arithmetic of the analog formula -/

/-- Truncation is monotone. -/
theorem trunc_mono {a b : ℚ} (h : a ≤ b) : trunc a ≤ trunc b := by
  unfold trunc
  by_cases ha : 0 ≤ a
  · have hb : 0 ≤ b := le_trans ha h
    simp only [ha, hb, if_true]
    exact Int.floor_mono h
  · by_cases hb : 0 ≤ b
    · simp only [ha, hb, if_true, if_false]
      have h1 : ⌈a⌉ ≤ 0 := by
        rw [Int.ceil_le]
        push_neg at ha
        exact_mod_cast ha.le
      have h2 : 0 ≤ ⌊b⌋ := by
        rw [Int.le_floor]
        exact_mod_cast hb
      omega
    · simp only [ha, hb, if_false]
      exact Int.ceil_mono h

/-- Truncation leaves an integer as it is. -/
theorem trunc_intCast (n : Int) : trunc (n : ℚ) = n := by
  unfold trunc
  split <;> simp

/-- Truncation stays below a positive integer bound of its argument. -/
theorem trunc_lt_of_lt {q : ℚ} {n : Int} (hn : 0 < n) (h : q < n) : trunc q < n := by
  unfold trunc
  split
  · exact Int.floor_lt.mpr h
  · rename_i hq
    push_neg at hq
    have h1 : ⌈q⌉ ≤ 0 := by
      rw [Int.ceil_le]
      exact_mod_cast hq.le
    omega

/-- The clamp to 0..255 lies in 0..255. -/
theorem clamp_range (v : Int) : 0 ≤ clamp v 0 255 ∧ clamp v 0 255 ≤ 255 := by
  unfold clamp
  split
  · omega
  · split <;> omega

/-- The clamp to 0..255 is monotone. -/
theorem clamp_mono {a b : Int} (h : a ≤ b) : clamp a 0 255 ≤ clamp b 0 255 := by
  unfold clamp
  split <;> split <;> omega

/-- Below the overflow threshold the computed value is the clamp of `127` plus the
truncated product. -/
theorem adjust_eq (d s : ℚ) (h : d * s < 2147483521) :
    adjust d s = clamp (127 + trunc (d * s)) 0 255 := by
  have ht : trunc (d * s) < 2147483521 := trunc_lt_of_lt (by norm_num) (by exact_mod_cast h)
  unfold adjust float_to_int int_add wrap_int INT_MIN INT_MAX clamp
  generalize trunc (d * s) = t at ht ⊢
  split <;> split <;> (try split) <;> (try split) <;> (try split) <;> omega

/-- The computed value lies in 0..255. -/
theorem adjust_range (d s : ℚ) : 0 ≤ adjust d s ∧ adjust d s ≤ 255 := clamp_range _

/-- The computed value is 0 when 127 plus the product is at most 0. -/
theorem adjust_low (d s : ℚ) (h : 127 + d * s ≤ 0) : adjust d s = 0 := by
  have h1 : d * s ≤ ((-127 : Int) : ℚ) := by push_cast; linarith
  have ht : trunc (d * s) ≤ -127 := by
    have := trunc_mono h1
    rwa [trunc_intCast] at this
  unfold adjust float_to_int int_add wrap_int INT_MIN INT_MAX clamp
  generalize trunc (d * s) = t at ht ⊢
  split <;> split <;> (try split) <;> omega

/-- Below the overflow threshold the computed value is 255 when 127 plus the product
is at least 255. -/
theorem adjust_high (d s : ℚ) (h : 255 ≤ 127 + d * s) (hr : d * s < 2147483521) :
    adjust d s = 255 := by
  have h1 : ((128 : Int) : ℚ) ≤ d * s := by push_cast; linarith
  have ht : 128 ≤ trunc (d * s) := by
    have := trunc_mono h1
    rwa [trunc_intCast] at this
  rw [adjust_eq d s hr]
  unfold clamp
  split <;> (try split) <;> omega

/-- Below the overflow threshold the computed value is monotone in the delta for a
non-negative sensitivity. -/
theorem adjust_mono (d1 d2 s : ℚ) (hs : 0 ≤ s) (hd : d1 ≤ d2) (hr : d2 * s < 2147483521) :
    adjust d1 s ≤ adjust d2 s := by
  have hp : d1 * s ≤ d2 * s := mul_le_mul_of_nonneg_right hd hs
  rw [adjust_eq d1 s (lt_of_le_of_lt hp hr), adjust_eq d2 s hr]
  apply clamp_mono
  have := trunc_mono hp
  omega

/-- The value computed for an integer product below the overflow threshold. -/
theorem adjust_of_int (d s : ℚ) (n : Int) (h : d * s = n) (hn : n < 2147483521) :
    adjust d s = clamp (127 + n) 0 255 := by
  have hlt : d * s < 2147483521 := by rw [h]; exact_mod_cast hn
  rw [adjust_eq d s hlt, h, trunc_intCast]

/-- The value computed for an integer product that is no 32-bit `int`. -/
theorem adjust_overflow (d s : ℚ) (n : Int) (h : d * s = n) (hn : 2147483647 < n) :
    adjust d s = 0 := by
  unfold adjust float_to_int
  rw [h, trunc_intCast]
  unfold int_add wrap_int INT_MIN INT_MAX clamp
  split <;> split <;> (try split) <;> omega

/-! ## The camera channels written by a motion event -/

/-- A motion event in camera-control mode, in closed form. -/
theorem process_event_motion_camera (dev : MouseDevice) (mod_state : Nat) (x y xrel yrel : ℚ)
    (commands : CommandBindingGroups) (data : PadData)
    (bind_assignment : Option InputBindAssignmentMeta) (hcam : dev.m_control_camera = true) :
    process_event dev mod_state (SDL_Event.motion x y xrel yrel) commands data bind_assignment =
      { dev := { dev with
          m_xcoord := x, m_ycoord := y,
          m_mouse_moved_x := dev.m_mouse_moved_x || decide (0 < adjust xrel dev.m_xsens),
          m_mouse_moved_y := dev.m_mouse_moved_y || decide (0 < adjust yrel dev.m_ysens) },
        data := (data.set_analog 2 (adjust xrel dev.m_xsens)).set_analog 3
          (adjust yrel dev.m_ysens),
        invoked := [], warnings := [] } := by
  simp only [process_event, hcam, if_true]
  by_cases hx : 0 < adjust xrel dev.m_xsens <;> by_cases hy : 0 < adjust yrel dev.m_ysens <;>
    simp [hx, hy, hcam]

/-- A motion event in cursor mode, in closed form. -/
theorem process_event_motion_cursor (dev : MouseDevice) (mod_state : Nat) (x y xrel yrel : ℚ)
    (commands : CommandBindingGroups) (data : PadData)
    (bind_assignment : Option InputBindAssignmentMeta) (hcam : dev.m_control_camera = false) :
    process_event dev mod_state (SDL_Event.motion x y xrel yrel) commands data bind_assignment =
      { dev := { dev with m_xcoord := x, m_ycoord := y }, data := data,
        invoked := [], warnings := [] } := by
  simp [process_event, hcam]

/-- The value a camera-mode motion event writes to channel 2. -/
theorem process_event_motion_x (dev : MouseDevice) (mod_state : Nat) (x y xrel yrel : ℚ)
    (commands : CommandBindingGroups) (data : PadData)
    (bind_assignment : Option InputBindAssignmentMeta) (hcam : dev.m_control_camera = true) :
    channel_after dev mod_state (SDL_Event.motion x y xrel yrel) commands data
      bind_assignment 2 = adjust xrel dev.m_xsens := by
  unfold channel_after
  rw [process_event_motion_camera dev mod_state x y xrel yrel commands data bind_assignment hcam]
  simp [PadData.set_analog]

/-- The value a camera-mode motion event writes to channel 3. -/
theorem process_event_motion_y (dev : MouseDevice) (mod_state : Nat) (x y xrel yrel : ℚ)
    (commands : CommandBindingGroups) (data : PadData)
    (bind_assignment : Option InputBindAssignmentMeta) (hcam : dev.m_control_camera = true) :
    channel_after dev mod_state (SDL_Event.motion x y xrel yrel) commands data
      bind_assignment 3 = adjust yrel dev.m_ysens := by
  unfold channel_after
  rw [process_event_motion_camera dev mod_state x y xrel yrel commands data bind_assignment hcam]
  simp [PadData.set_analog]

/-! ## Claims about the analog mapping -/

/-- The bounds of the camera channels away from the `int` overflow: the value a
camera-mode motion event writes for an axis lies
in 0..255, is 127 when the product of delta and sensitivity is 0, is 0 whenever 127 plus
the product is at most 0, is 255 whenever 127 plus the product is at least 255 and the
product is below `2^31 - 127`, and for a non-negative sensitivity does not decrease when
the delta grows, as long as the larger product is below `2^31 - 127`. -/
theorem camera_axis_value (dev : MouseDevice) (mod_state : Nat) (x y xrel yrel : ℚ)
    (commands : CommandBindingGroups) (data : PadData)
    (bind_assignment : Option InputBindAssignmentMeta) (hcam : dev.m_control_camera = true) :
    (0 ≤ channel_after dev mod_state (SDL_Event.motion x y xrel yrel) commands data
          bind_assignment 2 ∧
        channel_after dev mod_state (SDL_Event.motion x y xrel yrel) commands data
          bind_assignment 2 ≤ 255 ∧
        (xrel * dev.m_xsens = 0 →
          channel_after dev mod_state (SDL_Event.motion x y xrel yrel) commands data
            bind_assignment 2 = 127) ∧
        (127 + xrel * dev.m_xsens ≤ 0 →
          channel_after dev mod_state (SDL_Event.motion x y xrel yrel) commands data
            bind_assignment 2 = 0) ∧
        (255 ≤ 127 + xrel * dev.m_xsens → xrel * dev.m_xsens < 2147483521 →
          channel_after dev mod_state (SDL_Event.motion x y xrel yrel) commands data
            bind_assignment 2 = 255) ∧
        (∀ x2 y2 xrel2 yrel2 : ℚ, 0 ≤ dev.m_xsens → xrel ≤ xrel2 →
          xrel2 * dev.m_xsens < 2147483521 →
          channel_after dev mod_state (SDL_Event.motion x y xrel yrel) commands data
              bind_assignment 2 ≤
            channel_after dev mod_state (SDL_Event.motion x2 y2 xrel2 yrel2) commands data
              bind_assignment 2)) ∧
      (0 ≤ channel_after dev mod_state (SDL_Event.motion x y xrel yrel) commands data
          bind_assignment 3 ∧
        channel_after dev mod_state (SDL_Event.motion x y xrel yrel) commands data
          bind_assignment 3 ≤ 255 ∧
        (yrel * dev.m_ysens = 0 →
          channel_after dev mod_state (SDL_Event.motion x y xrel yrel) commands data
            bind_assignment 3 = 127) ∧
        (127 + yrel * dev.m_ysens ≤ 0 →
          channel_after dev mod_state (SDL_Event.motion x y xrel yrel) commands data
            bind_assignment 3 = 0) ∧
        (255 ≤ 127 + yrel * dev.m_ysens → yrel * dev.m_ysens < 2147483521 →
          channel_after dev mod_state (SDL_Event.motion x y xrel yrel) commands data
            bind_assignment 3 = 255) ∧
        (∀ x2 y2 xrel2 yrel2 : ℚ, 0 ≤ dev.m_ysens → yrel ≤ yrel2 →
          yrel2 * dev.m_ysens < 2147483521 →
          channel_after dev mod_state (SDL_Event.motion x y xrel yrel) commands data
              bind_assignment 3 ≤
            channel_after dev mod_state (SDL_Event.motion x2 y2 xrel2 yrel2) commands data
              bind_assignment 3)) := by
  simp only [process_event_motion_x _ _ _ _ _ _ _ _ _ hcam,
    process_event_motion_y _ _ _ _ _ _ _ _ _ hcam]
  refine ⟨⟨(adjust_range _ _).1, (adjust_range _ _).2, ?_, adjust_low _ _, adjust_high _ _, ?_⟩,
    ⟨(adjust_range _ _).1, (adjust_range _ _).2, ?_, adjust_low _ _, adjust_high _ _, ?_⟩⟩
  · intro h0
    rw [adjust_of_int xrel dev.m_xsens 0 (by simpa using h0) (by norm_num)]
    decide
  · intro _ _ xrel2 _ hs hd hr
    exact adjust_mono xrel xrel2 dev.m_xsens hs hd hr
  · intro h0
    rw [adjust_of_int yrel dev.m_ysens 0 (by simpa using h0) (by norm_num)]
    decide
  · intro _ _ _ yrel2 hs hd hr
    exact adjust_mono yrel yrel2 dev.m_ysens hs hd hr

/-- The boundary products -127, 0 and +128 at sensitivity 1. -/
theorem camera_axis_value_witness :
    camera_device.m_control_camera = true ∧
      channel_after camera_device 0 (SDL_Event.motion 0 0 (-127) 128) no_commands neutral_pad
        none 2 = 0 ∧
      channel_after camera_device 0 (SDL_Event.motion 0 0 (-127) 128) no_commands neutral_pad
        none 3 = 255 ∧
      channel_after camera_device 0 (SDL_Event.motion 0 0 0 0) no_commands neutral_pad
        none 2 = 127 :=
  ⟨rfl,
    (camera_axis_value camera_device 0 0 0 (-127) 128 no_commands neutral_pad none
      rfl).1.2.2.2.1 (by norm_num [camera_device, cursor_device]),
    (camera_axis_value camera_device 0 0 0 (-127) 128 no_commands neutral_pad none
      rfl).2.2.2.2.2.1 (by norm_num [camera_device, cursor_device])
      (by norm_num [camera_device, cursor_device]),
    (camera_axis_value camera_device 0 0 0 0 0 no_commands neutral_pad none
      rfl).1.2.2.1 (by norm_num [camera_device, cursor_device])⟩

/-- C7, the code at the failing input: with camera control active and the x sensitivity
set to `2^31`, a motion event with a delta of 1 on x has 127 plus the product above 255,
yet channel 2 receives 0 and not 255, which is also less than the 127 that a delta of 0
gives at the same, non-negative sensitivity. -/
theorem camera_axis_value_at_failing_input :
    steep_device.m_control_camera = true ∧
      (0 : ℚ) ≤ steep_device.m_xsens ∧
      (255 : ℚ) ≤ 127 + 1 * steep_device.m_xsens ∧
      channel_after steep_device 0 (SDL_Event.motion 0 0 1 0) no_commands neutral_pad
        none 2 = 0 ∧
      channel_after steep_device 0 (SDL_Event.motion 0 0 0 0) no_commands neutral_pad
        none 2 = 127 := by
  have hs : steep_device.m_xsens = 2147483648 := rfl
  refine ⟨rfl, by rw [hs]; norm_num, by rw [hs]; norm_num, ?_, ?_⟩
  · rw [process_event_motion_x steep_device 0 0 0 1 0 no_commands neutral_pad none rfl, hs]
    exact adjust_overflow 1 2147483648 2147483648 (by norm_num) (by norm_num)
  · rw [process_event_motion_x steep_device 0 0 0 0 0 no_commands neutral_pad none rfl, hs,
      adjust_of_int 0 2147483648 0 (by norm_num) (by norm_num)]
    decide

/-- C8, the code at the failing inputs: in camera-control mode with both flags clear, an
event with zero motion on x sets the x flag, and an event moving 200 units backwards on
y leaves the y flag clear. -/
theorem mouse_moved_flags_at_failing_input :
    camera_device.m_mouse_moved_x = false ∧ camera_device.m_mouse_moved_y = false ∧
      (process_event camera_device 0 (SDL_Event.motion 0 0 0 (-200)) no_commands neutral_pad
        none).dev.m_mouse_moved_x = true ∧
      (process_event camera_device 0 (SDL_Event.motion 0 0 0 (-200)) no_commands neutral_pad
        none).dev.m_mouse_moved_y = false := by
  rw [process_event_motion_camera camera_device 0 0 0 0 (-200) no_commands neutral_pad none rfl]
  have hx : camera_device.m_xsens = 1 := rfl
  have hy : camera_device.m_ysens = 1 := rfl
  have h1 : adjust 0 1 = 127 := by
    rw [adjust_of_int 0 1 0 (by norm_num) (by norm_num)]
    decide
  have h2 : adjust (-200) 1 = 0 := by
    rw [adjust_of_int (-200) 1 (-200) (by norm_num) (by norm_num)]
    decide
  simp only [hx, hy, h1, h2]
  refine ⟨rfl, rfl, ?_, ?_⟩ <;> simp [camera_device, cursor_device]

/-- C10: a motion event sets the cursor position to the event position in either mode
and leaves the button status, the settings with their bind table and the active actions
as they were; in cursor mode the pad data and both mouse-moved flags are unchanged, and
in camera-control mode every analog channel other than 2 and 3 and all button data are
unchanged. -/
theorem process_event_motion_frame (dev : MouseDevice) (mod_state : Nat) (x y xrel yrel : ℚ)
    (commands : CommandBindingGroups) (data : PadData)
    (bind_assignment : Option InputBindAssignmentMeta) :
    (process_event dev mod_state (SDL_Event.motion x y xrel yrel) commands data
        bind_assignment).dev.m_xcoord = x ∧
      (process_event dev mod_state (SDL_Event.motion x y xrel yrel) commands data
        bind_assignment).dev.m_ycoord = y ∧
      (process_event dev mod_state (SDL_Event.motion x y xrel yrel) commands data
        bind_assignment).dev.m_button_status = dev.m_button_status ∧
      (process_event dev mod_state (SDL_Event.motion x y xrel yrel) commands data
        bind_assignment).dev.m_settings = dev.m_settings ∧
      (process_event dev mod_state (SDL_Event.motion x y xrel yrel) commands data
        bind_assignment).dev.m_active_actions = dev.m_active_actions ∧
      (dev.m_control_camera = false →
        (process_event dev mod_state (SDL_Event.motion x y xrel yrel) commands data
          bind_assignment).data = data ∧
        (process_event dev mod_state (SDL_Event.motion x y xrel yrel) commands data
          bind_assignment).dev.m_mouse_moved_x = dev.m_mouse_moved_x ∧
        (process_event dev mod_state (SDL_Event.motion x y xrel yrel) commands data
          bind_assignment).dev.m_mouse_moved_y = dev.m_mouse_moved_y) ∧
      (dev.m_control_camera = true →
        (∀ i : Nat, i ≠ 2 → i ≠ 3 →
          (process_event dev mod_state (SDL_Event.motion x y xrel yrel) commands data
            bind_assignment).data.analog_data i = data.analog_data i) ∧
        (process_event dev mod_state (SDL_Event.motion x y xrel yrel) commands data
          bind_assignment).data.button_data = data.button_data) := by
  cases hcam : dev.m_control_camera with
  | false =>
    rw [process_event_motion_cursor dev mod_state x y xrel yrel commands data bind_assignment
      hcam]
    simp
  | true =>
    rw [process_event_motion_camera dev mod_state x y xrel yrel commands data bind_assignment
      hcam]
    simp +contextual [PadData.set_analog]

/-- C10, witness: a motion event in cursor mode and one in camera-control mode. -/
theorem process_event_motion_frame_witness :
    ((process_event cursor_device 0 (SDL_Event.motion 10 20 3 4) no_commands neutral_pad
        none).dev.m_xcoord = 10 ∧
      (process_event cursor_device 0 (SDL_Event.motion 10 20 3 4) no_commands neutral_pad
        none).data = neutral_pad) ∧
      (process_event camera_device 0 (SDL_Event.motion 10 20 3 4) no_commands neutral_pad
        none).dev.m_ycoord = 20 ∧
      (process_event camera_device 0 (SDL_Event.motion 10 20 3 4) no_commands neutral_pad
        none).data.analog_data 1 = neutral_pad.analog_data 1 :=
  ⟨⟨(process_event_motion_frame cursor_device 0 10 20 3 4 no_commands neutral_pad none).1,
      ((process_event_motion_frame cursor_device 0 10 20 3 4 no_commands neutral_pad
        none).2.2.2.2.2.1 rfl).1⟩,
    (process_event_motion_frame camera_device 0 10 20 3 4 no_commands neutral_pad none).2.1,
    ((process_event_motion_frame camera_device 0 10 20 3 4 no_commands neutral_pad
      none).2.2.2.2.2.2 rfl).1 1 (by decide) (by decide)⟩

/-! ## Button events -/

/-- The button status after a button event, whatever else the event does. -/
theorem process_event_button_dev_status (dev : MouseDevice) (mod_state : Nat) (down : Bool)
    (button : Nat) (commands : CommandBindingGroups) (data : PadData)
    (bind_assignment : Option InputBindAssignmentMeta) :
    (process_event dev mod_state (SDL_Event.button down button) commands data
      bind_assignment).dev.m_button_status =
      update_button_status dev.m_button_status button down := by
  simp only [process_event]
  split
  · split <;> rfl
  · split <;> rfl

/-- A button-down event while a bind assignment is pending, in closed form. -/
theorem process_event_button_pending (dev : MouseDevice) (mod_state : Nat) (button : Nat)
    (commands : CommandBindingGroups) (data : PadData) (assignment : InputBindAssignmentMeta) :
    process_event dev mod_state (SDL_Event.button true button) commands data (some assignment) =
      { dev := { dev with
          m_button_status := update_button_status dev.m_button_status button true,
          m_settings :=
            if assignment.device_type = InputDeviceType.MOUSE ∧ assignment.for_analog = false
            then dev.m_settings.assign_button_bind button assignment false mod_state
            else dev.m_settings },
        data := data, invoked := [], warnings := [] } := by
  simp only [process_event]
  split <;> rfl

/-- C2, as the code has it: a button-down event while a bind assignment is pending
registers exactly one new binding (the button code of the event, the assignment, the
current modifier state) at the end of the mouse bind table when the assignment is for
the mouse and not for an analog, registers nothing otherwise, and in either case invokes
no command callback and logs nothing. -/
theorem process_event_bind_assignment (dev : MouseDevice) (mod_state : Nat) (button : Nat)
    (commands : CommandBindingGroups) (data : PadData) (assignment : InputBindAssignmentMeta) :
    (assignment.device_type = InputDeviceType.MOUSE ∧ assignment.for_analog = false →
        (process_event dev mod_state (SDL_Event.button true button) commands data
          (some assignment)).dev.m_settings.mouse_binds =
          dev.m_settings.mouse_binds ++
            [{ sdl_idx := button, bind_meta := assignment, analog_button := false,
               modifiers := mod_state }]) ∧
      (¬ (assignment.device_type = InputDeviceType.MOUSE ∧ assignment.for_analog = false) →
        (process_event dev mod_state (SDL_Event.button true button) commands data
          (some assignment)).dev.m_settings.mouse_binds = dev.m_settings.mouse_binds) ∧
      (process_event dev mod_state (SDL_Event.button true button) commands data
        (some assignment)).invoked = [] ∧
      (process_event dev mod_state (SDL_Event.button true button) commands data
        (some assignment)).warnings = [] := by
  rw [process_event_button_pending]
  refine ⟨?_, ?_, rfl, rfl⟩
  · intro h
    simp only [if_pos h, InputSettings.assign_button_bind]
  · intro h
    simp only [if_neg h]

/-- C2, witness: a left-button press with a command bound to it, once with a pending
mouse assignment and once with a pending analog assignment. -/
theorem process_event_bind_assignment_witness :
    (process_event cursor_device 1 (SDL_Event.button true 1) (left_commands [event_cmd])
        neutral_pad (some { device_type := InputDeviceType.MOUSE, for_analog := false })
        ).dev.m_settings.mouse_binds =
        cursor_device.m_settings.mouse_binds ++
          [{ sdl_idx := 1,
             bind_meta := { device_type := InputDeviceType.MOUSE, for_analog := false },
             analog_button := false, modifiers := 1 }] ∧
      (process_event cursor_device 1 (SDL_Event.button true 1) (left_commands [event_cmd])
        neutral_pad (some { device_type := InputDeviceType.MOUSE, for_analog := true })
        ).dev.m_settings.mouse_binds = cursor_device.m_settings.mouse_binds ∧
      (process_event cursor_device 1 (SDL_Event.button true 1) (left_commands [event_cmd])
        neutral_pad (some { device_type := InputDeviceType.MOUSE, for_analog := false })
        ).invoked = [] :=
  ⟨(process_event_bind_assignment cursor_device 1 1 (left_commands [event_cmd]) neutral_pad
      { device_type := InputDeviceType.MOUSE, for_analog := false }).1 ⟨rfl, rfl⟩,
    (process_event_bind_assignment cursor_device 1 1 (left_commands [event_cmd]) neutral_pad
      { device_type := InputDeviceType.MOUSE, for_analog := true }).2.1 (by decide),
    (process_event_bind_assignment cursor_device 1 1 (left_commands [event_cmd]) neutral_pad
      { device_type := InputDeviceType.MOUSE, for_analog := false }).2.2.1⟩

/-- C2, counterexample: with a pending assignment for the keyboard, a left-button press
registers no binding: the mouse bind table stays empty. -/
theorem process_event_keyboard_assignment_registers_nothing :
    cursor_device.m_settings.mouse_binds = [] ∧
      (process_event cursor_device 0 (SDL_Event.button true 1) no_commands neutral_pad
        (some { device_type := InputDeviceType.KEYBOARD, for_analog := false })
        ).dev.m_settings.mouse_binds = [] := by
  rw [process_event_button_pending]
  exact ⟨rfl, rfl⟩

/-- C9: a button-down or button-up event sets the flag of its button (left, right,
middle, X1 as mouse4, X2 as mouse5) to true for a down event and to false for an up
event and leaves the other four flags as they were; an event for any other button
leaves all five flags as they were.  This holds whether or not a bind assignment is
pending. -/
theorem process_event_button_status (dev : MouseDevice) (mod_state : Nat) (down : Bool)
    (button : Nat) (commands : CommandBindingGroups) (data : PadData)
    (bind_assignment : Option InputBindAssignmentMeta) :
    (button = SDL_BUTTON_LEFT →
        (process_event dev mod_state (SDL_Event.button down button) commands data
          bind_assignment).dev.m_button_status = { dev.m_button_status with left := down }) ∧
      (button = SDL_BUTTON_RIGHT →
        (process_event dev mod_state (SDL_Event.button down button) commands data
          bind_assignment).dev.m_button_status = { dev.m_button_status with right := down }) ∧
      (button = SDL_BUTTON_MIDDLE →
        (process_event dev mod_state (SDL_Event.button down button) commands data
          bind_assignment).dev.m_button_status = { dev.m_button_status with middle := down }) ∧
      (button = SDL_BUTTON_X1 →
        (process_event dev mod_state (SDL_Event.button down button) commands data
          bind_assignment).dev.m_button_status = { dev.m_button_status with mouse4 := down }) ∧
      (button = SDL_BUTTON_X2 →
        (process_event dev mod_state (SDL_Event.button down button) commands data
          bind_assignment).dev.m_button_status = { dev.m_button_status with mouse5 := down }) ∧
      (button ≠ SDL_BUTTON_LEFT → button ≠ SDL_BUTTON_RIGHT → button ≠ SDL_BUTTON_MIDDLE →
        button ≠ SDL_BUTTON_X1 → button ≠ SDL_BUTTON_X2 →
        (process_event dev mod_state (SDL_Event.button down button) commands data
          bind_assignment).dev.m_button_status = dev.m_button_status) := by
  rw [process_event_button_dev_status]
  refine ⟨?_, ?_, ?_, ?_, ?_, ?_⟩
  · intro h; subst h; rfl
  · intro h; subst h; rfl
  · intro h; subst h; rfl
  · intro h; subst h; rfl
  · intro h; subst h; rfl
  · intro h1 h2 h3 h4 h5
    simp [update_button_status, h1, h2, h3, h4, h5]

/-- C9, witness: a right-button press while a bind assignment is pending, the release
of the X2 button, and a press of button 6. -/
theorem process_event_button_status_witness :
    (process_event cursor_device 0 (SDL_Event.button true 3) no_commands neutral_pad
        (some { device_type := InputDeviceType.MOUSE, for_analog := false })
        ).dev.m_button_status = { cursor_device.m_button_status with right := true } ∧
      (process_event cursor_device 0 (SDL_Event.button false 5) no_commands neutral_pad
        none).dev.m_button_status = { cursor_device.m_button_status with mouse5 := false } ∧
      (process_event cursor_device 0 (SDL_Event.button true 6) no_commands neutral_pad
        none).dev.m_button_status = cursor_device.m_button_status :=
  ⟨(process_event_button_status cursor_device 0 true 3 no_commands neutral_pad
      (some { device_type := InputDeviceType.MOUSE, for_analog := false })).2.1 rfl,
    (process_event_button_status cursor_device 0 false 5 no_commands neutral_pad
      none).2.2.2.2.1 rfl,
    (process_event_button_status cursor_device 0 true 6 no_commands neutral_pad
      none).2.2.2.2.2 (by decide) (by decide) (by decide) (by decide) (by decide)⟩

/-! ## Active actions -/

/-- The loop of a non-movement query finds an action exactly when one has the code. -/
theorem is_action_already_active_loop_button (sdl_code : Nat) (actions : List ActiveAction) :
    is_action_already_active_loop sdl_code false actions = true ↔
      ∃ a ∈ actions, a.sdl_mouse_button = sdl_code := by
  induction actions with
  | nil => simp [is_action_already_active_loop]
  | cons a rest ih =>
    by_cases h : a.sdl_mouse_button = sdl_code <;>
      simp [is_action_already_active_loop, h, ih]

/-- The loop of a movement query finds an action exactly when one is a movement action. -/
theorem is_action_already_active_loop_movement (sdl_code : Nat) (actions : List ActiveAction) :
    is_action_already_active_loop sdl_code true actions = true ↔
      ∃ a ∈ actions, a.player_movement = true := by
  induction actions with
  | nil => simp [is_action_already_active_loop]
  | cons a rest ih =>
    cases h : a.player_movement <;> simp [is_action_already_active_loop, h, ih]

/-- C4, as the code has it: a non-movement query returns true exactly when some active
action, movement or not, has the queried button code; a player-movement query returns
true exactly when some active action is a player-movement action, whatever code is
passed. -/
theorem is_action_already_active_iff (dev : MouseDevice) (sdl_code : Nat) :
    (is_action_already_active dev sdl_code false = true ↔
        ∃ a ∈ dev.m_active_actions, a.sdl_mouse_button = sdl_code) ∧
      (is_action_already_active dev sdl_code true = true ↔
        ∃ a ∈ dev.m_active_actions, a.player_movement = true) :=
  ⟨is_action_already_active_loop_button sdl_code dev.m_active_actions,
    is_action_already_active_loop_movement sdl_code dev.m_active_actions⟩

/-- C4, counterexample: with one player-movement action on button 2 active, the
non-movement query for button 1 returns false; with one non-movement action on button 1
active, the player-movement query for button 1 returns false.  The test as the
specification words it holds in both cases. -/
theorem is_action_already_active_depends_on_query :
    is_action_already_active { cursor_device with m_active_actions := [sample_action 2 true] }
        1 false = false ∧
      spec_action_active [sample_action 2 true] 1 ∧
      is_action_already_active { cursor_device with m_active_actions := [sample_action 1 false] }
        1 true = false ∧
      spec_action_active [sample_action 1 false] 1 := by
  refine ⟨rfl, Or.inr ⟨sample_action 2 true, ?_, rfl⟩, rfl,
    Or.inl ⟨sample_action 1 false, ?_, rfl, rfl⟩⟩ <;> simp

/-- The loop of `clear_actions` in closed form. -/
theorem clear_actions_loop_eq (actions : List ActiveAction) (data : PadData)
    (reverted : List ActiveAction) :
    clear_actions_loop actions data reverted =
      (actions.foldl (fun d a => a.revert_action d a.binding) data, reverted ++ actions) := by
  induction actions generalizing data reverted with
  | nil => simp [clear_actions_loop]
  | cons a rest ih => simp [clear_actions_loop, ih]

/-- C5: `clear_actions` calls the revert callback of every active action once, in list
order, each on the pad data as the calls before left it and with the binding of that
action, and leaves the list empty, so that `is_action_already_active` is false for every
code and flag afterwards; on an empty list it makes no call and changes neither device
nor pad data, and a second `clear_actions` right after the first makes no call and
changes nothing. -/
theorem clear_actions_reverts_all (dev : MouseDevice) (data : PadData) :
    (clear_actions dev data).reverted = dev.m_active_actions ∧
      (clear_actions dev data).data =
        dev.m_active_actions.foldl (fun d a => a.revert_action d a.binding) data ∧
      (clear_actions dev data).dev = { dev with m_active_actions := [] } ∧
      (∀ (sdl_code : Nat) (player_movement : Bool),
        is_action_already_active (clear_actions dev data).dev sdl_code player_movement = false) ∧
      (dev.m_active_actions = [] →
        (clear_actions dev data).dev = dev ∧ (clear_actions dev data).data = data ∧
          (clear_actions dev data).reverted = []) ∧
      (clear_actions (clear_actions dev data).dev (clear_actions dev data).data).dev =
        (clear_actions dev data).dev ∧
      (clear_actions (clear_actions dev data).dev (clear_actions dev data).data).data =
        (clear_actions dev data).data ∧
      (clear_actions (clear_actions dev data).dev (clear_actions dev data).data).reverted = [] := by
  refine ⟨?_, ?_, ?_, ?_, ?_, ?_, ?_, ?_⟩
  · simp [clear_actions, clear_actions_loop_eq]
  · simp [clear_actions, clear_actions_loop_eq]
  · simp [clear_actions]
  · intro c p
    rfl
  · intro h
    cases dev
    simp only at h
    subst h
    exact ⟨rfl, rfl, rfl⟩
  · rfl
  · rfl
  · rfl

/-- C5, witness: clearing a device with two active actions, and clearing a device with
none. -/
theorem clear_actions_reverts_all_witness :
    (clear_actions
        { cursor_device with m_active_actions := [sample_action 1 false, sample_action 2 true] }
        neutral_pad).reverted.length = 2 ∧
      is_action_already_active
        (clear_actions
          { cursor_device with m_active_actions := [sample_action 1 false, sample_action 2 true] }
          neutral_pad).dev 2 true = false ∧
      (clear_actions cursor_device neutral_pad).reverted = [] :=
  ⟨congrArg List.length
      (clear_actions_reverts_all
        { cursor_device with m_active_actions := [sample_action 1 false, sample_action 2 true] }
        neutral_pad).1,
    (clear_actions_reverts_all
      { cursor_device with m_active_actions := [sample_action 1 false, sample_action 2 true] }
      neutral_pad).2.2.2.1 2 true,
    ((clear_actions_reverts_all cursor_device neutral_pad).2.2.2.2.1 rfl).2.2⟩

/-! ## Polling -/

/-- When no wheel event can be taken, the queue holds none. -/
theorem SDL_PeepEvents_wheel_none (q : List SDL_Event) (h : SDL_PeepEvents_wheel q = none) :
    wheel_deltas q = [] ∧ non_wheel q = q := by
  induction q with
  | nil => exact ⟨rfl, rfl⟩
  | cons e rest ih =>
    cases e with
    | wheel v => simp [SDL_PeepEvents_wheel] at h
    | _ =>
      simp only [SDL_PeepEvents_wheel] at h
      split at h
      · rename_i heq
        simp [wheel_deltas, non_wheel, ih heq]
      · simp at h

/-- The event taken is the oldest wheel event; the other events stay, in order. -/
theorem SDL_PeepEvents_wheel_some (q : List SDL_Event) (y : ℚ) (q2 : List SDL_Event)
    (h : SDL_PeepEvents_wheel q = some (y, q2)) :
    wheel_deltas q = y :: wheel_deltas q2 ∧ non_wheel q = non_wheel q2 := by
  induction q generalizing y q2 with
  | nil => simp [SDL_PeepEvents_wheel] at h
  | cons e rest ih =>
    cases e with
    | wheel v =>
      simp only [SDL_PeepEvents_wheel, Option.some.injEq, Prod.mk.injEq] at h
      rw [← h.1, ← h.2]
      exact ⟨rfl, rfl⟩
    | _ =>
      simp only [SDL_PeepEvents_wheel] at h
      split at h
      · simp at h
      · rename_i w2 r2 heq
        simp only [Option.some.injEq, Prod.mk.injEq] at h
        rw [← h.1, ← h.2]
        simp [wheel_deltas, non_wheel, ih w2 r2 heq]

/-- A queue without its wheel events holds no wheel event. -/
theorem non_wheel_no_wheel (q : List SDL_Event) (y : ℚ) : SDL_Event.wheel y ∉ non_wheel q := by
  induction q with
  | nil => simp [non_wheel]
  | cons e rest ih => cases e <;> simp [non_wheel, ih]

/-- Nothing can be taken from a queue without its wheel events. -/
theorem SDL_PeepEvents_wheel_non_wheel (q : List SDL_Event) :
    SDL_PeepEvents_wheel (non_wheel q) = none := by
  induction q with
  | nil => rfl
  | cons e rest ih => cases e <;> simp [non_wheel, SDL_PeepEvents_wheel, ih]

/-- The drain loop in closed form: it adds every pending wheel delta to the accumulator
and leaves the other events. -/
theorem drain_wheel_eq (n : Nat) (q : List SDL_Event) (hn : q.length ≤ n) (acc : ℚ) :
    drain_wheel q acc = (acc + (wheel_deltas q).sum, non_wheel q) := by
  induction n generalizing q acc with
  | zero =>
    have hq : q = [] := List.length_eq_zero.mp (Nat.le_zero.mp hn)
    subst hq
    rw [drain_wheel]
    simp [SDL_PeepEvents_wheel, wheel_deltas, non_wheel]
  | succ n ih =>
    rw [drain_wheel]
    split
    · rename_i heq
      have := SDL_PeepEvents_wheel_none q heq
      simp [this.1, this.2]
    · rename_i y q2 heq
      have hs := SDL_PeepEvents_wheel_some q y q2 heq
      have hlen : q2.length < q.length := by
        have h1 : (wheel_deltas q).length + (non_wheel q).length = q.length := by
          clear heq hs hn ih
          induction q with
          | nil => rfl
          | cons e rest ih2 => cases e <;> simp [wheel_deltas, non_wheel] <;> omega
        have h2 : (wheel_deltas q2).length + (non_wheel q2).length = q2.length := by
          clear heq hs hn ih
          induction q2 with
          | nil => rfl
          | cons e rest ih2 => cases e <;> simp [wheel_deltas, non_wheel] <;> omega
        rw [hs.1, hs.2] at h1
        simp only [List.length_cons] at h1
        omega
      rw [ih q2 (by omega), hs.1, hs.2, List.sum_cons, add_assoc]

/-- C6: after `poll_state` the scroll accumulator is the sum of the y deltas of the
wheel events that were pending (zero when there were none), whatever it was before the
call; the queue left behind is the pending queue without its wheel events, so no wheel
event remains and a further take finds nothing. -/
theorem poll_state_scroll (dev : MouseDevice) (sdl : SDL_State) :
    (poll_state dev sdl).1.scroll_y = (wheel_deltas sdl.queue).sum ∧
      (wheel_deltas sdl.queue = [] → (poll_state dev sdl).1.scroll_y = 0) ∧
      (∀ s0 : ℚ, (poll_state { dev with scroll_y := s0 } sdl).1.scroll_y =
        (poll_state dev sdl).1.scroll_y) ∧
      (poll_state dev sdl).2 = non_wheel sdl.queue ∧
      (∀ y : ℚ, SDL_Event.wheel y ∉ (poll_state dev sdl).2) ∧
      SDL_PeepEvents_wheel (poll_state dev sdl).2 = none := by
  have hd := drain_wheel_eq sdl.queue.length sdl.queue (le_refl _) 0
  simp only [poll_state, hd, zero_add]
  refine ⟨trivial, ?_, ?_, trivial, ?_, ?_⟩
  · intro h
    simp [h]
  · intro _
    trivial
  · intro y
    exact non_wheel_no_wheel sdl.queue y
  · exact SDL_PeepEvents_wheel_non_wheel sdl.queue

/-- C6, witness: a poll with the accumulator at 5 and two wheel events pending among
other events, and a poll with no wheel event pending. -/
theorem poll_state_scroll_witness :
    (poll_state { cursor_device with scroll_y := 5 }
        { mouse_state := 0, mouse_x := 0, mouse_y := 0, xrel := 0, yrel := 0,
          queue := [SDL_Event.wheel 1, SDL_Event.other, SDL_Event.wheel 2] }).1.scroll_y =
        (wheel_deltas [SDL_Event.wheel 1, SDL_Event.other, SDL_Event.wheel 2]).sum ∧
      (poll_state { cursor_device with scroll_y := 5 }
        { mouse_state := 0, mouse_x := 0, mouse_y := 0, xrel := 0, yrel := 0,
          queue := [SDL_Event.other] }).1.scroll_y = 0 :=
  ⟨(poll_state_scroll { cursor_device with scroll_y := 5 }
      { mouse_state := 0, mouse_x := 0, mouse_y := 0, xrel := 0, yrel := 0,
        queue := [SDL_Event.wheel 1, SDL_Event.other, SDL_Event.wheel 2] }).1,
    (poll_state_scroll { cursor_device with scroll_y := 5 }
      { mouse_state := 0, mouse_x := 0, mouse_y := 0, xrel := 0, yrel := 0,
        queue := [SDL_Event.other] }).2.1 rfl⟩

end Mouse
